import Mathlib

/-!
Shallow embedding of the game session controller of the Pokemon battle
predictor (source: src/components/PokemonBattle.tsx).  The React component
state is modelled as an explicit record, each state-mutating handler as a
pure state-transition function, and the two effect hooks (high-score sync
and cooldown timer) as explicit transition functions invoked by an external
scheduler.  Network fetches are modelled by a lookup function
net : Nat -> Option Pokemon (none models an axios failure, which the code
catches and turns into a null result), and Math.random draws by an explicit
stream draws : Nat -> Nat of sampled identifiers.
-/

/-- Mirrors the stat.name object of the Pokemon type (src/types/pokemon.ts). -/
structure StatInfo where
  name : String
deriving DecidableEq

/-- Mirrors one entry of Pokemon.stats: a base_stat value with its stat info. -/
structure PokemonStat where
  base_stat : Nat
  stat : StatInfo
deriving DecidableEq

/-- Mirrors Pokemon.sprites. -/
structure SpriteSet where
  front_default : String
deriving DecidableEq

/-- Mirrors the type.name object of a Pokemon type entry. -/
structure TypeInfo where
  name : String
deriving DecidableEq

/-- Mirrors one entry of Pokemon.types. -/
structure PokemonType where
  type : TypeInfo
deriving DecidableEq

/-- Mirrors the Pokemon interface of src/types/pokemon.ts.  Base stats are
non-negative integers, hence Nat. -/
structure Pokemon where
  id : Nat
  name : String
  sprites : SpriteSet
  stats : List PokemonStat
  types : List PokemonType
deriving DecidableEq

/-- The difficulty union type of GameState: easy | hard. -/
inductive Difficulty where
  | easy
  | hard
deriving DecidableEq

/-- The result union type of GameState: correct | wrong. -/
inductive BattleResult where
  | correct
  | wrong
deriving DecidableEq

/-- The gameStatus union type of GameState: start | playing | gameOver. -/
inductive GameStatus where
  | start
  | playing
  | gameOver
deriving DecidableEq

/-- Mirrors the GameState interface of PokemonBattle.tsx.  The cooldown field
is a JS number; it is modelled over Int so that non-negativity of reachable
states is a provable property rather than a typing artifact. -/
structure GameState where
  pokemon1 : Option Pokemon
  pokemon2 : Option Pokemon
  userChoice : Option Nat
  streak : Nat
  highScore : Nat
  isLoading : Bool
  result : Option BattleResult
  achievements : List String
  gameStatus : GameStatus
  difficulty : Difficulty
  cooldown : Int
deriving DecidableEq

/-- calculateTotalStats: pokemon.stats.reduce((sum, stat) => sum + stat.base_stat, 0). -/
def calculateTotalStats (p : Pokemon) : Nat :=
  p.stats.foldl (fun sum st => sum + st.base_stat) 0

/-- isSimilarStats: |total(p1) - total(p2)| <= 50. -/
def isSimilarStats (p1 p2 : Pokemon) : Bool :=
  ((calculateTotalStats p1 : Int) - (calculateTotalStats p2 : Int)).natAbs ≤ 50

/-- calculateWinner: p1Power >= p2Power ? 1 : 2. -/
def calculateWinner (p1 p2 : Pokemon) : Nat :=
  if calculateTotalStats p1 ≥ calculateTotalStats p2 then 1 else 2

/-- The acceptance gate inside the fetchRandomPokemon sampling loop:
!excludePokemon || (difficulty === hard && isSimilarStats(pokemon, excludePokemon)). -/
def shouldAccept (diff : Difficulty) (exclude : Option Pokemon) (p : Pokemon) : Bool :=
  match exclude with
  | none => true
  | some e => decide (diff = Difficulty.hard) && isSimilarStats p e

/-- The while loop of fetchRandomPokemon.  Arguments: the network lookup, the
difficulty, the optional excluded pokemon, the stream of random draws, then
the current cache contents, the index of the next draw, and the remaining
attempts (maxAttempts - attempts).  Each iteration draws an id, consults the
cache (a cache hit that passes the gate returns immediately), otherwise
fetches over the network (a failure aborts the whole call, as the thrown
error is caught at the top of the function and turned into null), caches the
response, re-checks the gate, and otherwise recurses.  When attempts are
exhausted the code draws one more fresh id and returns whatever the network
gives for it, bypassing both the cache and the gate. -/
def fetchRandomPokemonLoop (net : Nat → Option Pokemon) (diff : Difficulty)
    (exclude : Option Pokemon) (draws : Nat → Nat) :
    (Nat → Option Pokemon) → Nat → Nat → Option Pokemon
  | _, k, 0 => net (draws k)
  | cache, k, n + 1 =>
    match cache (draws k) with
    | some p =>
      if shouldAccept diff exclude p then some p
      else
        match net (draws k) with
        | none => none
        | some q =>
          if shouldAccept diff exclude q then some q
          else fetchRandomPokemonLoop net diff exclude draws
            (fun j => if j = draws k then some q else cache j) (k + 1) n
    | none =>
      match net (draws k) with
      | none => none
      | some q =>
        if shouldAccept diff exclude q then some q
        else fetchRandomPokemonLoop net diff exclude draws
          (fun j => if j = draws k then some q else cache j) (k + 1) n

/-- maxAttempts constant of fetchRandomPokemon. -/
def maxAttempts : Nat := 5

/-- fetchRandomPokemon: runs the bounded sampling loop starting from the
given cache contents with attempts = 0. -/
def fetchRandomPokemon (net : Nat → Option Pokemon) (cache : Nat → Option Pokemon)
    (draws : Nat → Nat) (diff : Difficulty) (exclude : Option Pokemon) : Option Pokemon :=
  fetchRandomPokemonLoop net diff exclude draws cache 0 maxAttempts

/-- The first setGameState of loadNewBattle: isLoading := true. -/
def beginLoading (s : GameState) : GameState :=
  { s with isLoading := true }

/-- loadNewBattle, given the two fetch results (none models a null return of
the fetch helper).  It first sets isLoading, then updates the round fields
only when both fetches produced a pokemon; otherwise no further state update
happens (the catch branch is unreachable because the fetch helper catches
its own errors). -/
def loadNewBattle (r1 r2 : Option Pokemon) (s : GameState) : GameState :=
  let t := beginLoading s
  match r1, r2 with
  | some p1, some p2 =>
    { t with
        pokemon1 := some p1
        pokemon2 := some p2
        isLoading := false
        result := none
        userChoice := none
        cooldown := 0 }
  | _, _ => t

/-- startGame: gameStatus := playing, streak := 0, difficulty := d. -/
def startGame (d : Difficulty) (s : GameState) : GameState :=
  { s with gameStatus := GameStatus.playing, streak := 0, difficulty := d }

/-- handleChoice: guarded on missing candidates or positive cooldown, then a
single state update recording the choice, the result, the new streak, the
new status and the cooldown. -/
def handleChoice (choice : Nat) (s : GameState) : GameState :=
  match s.pokemon1, s.pokemon2 with
  | some p1, some p2 =>
    if 0 < s.cooldown then s
    else
      let winner := calculateWinner p1 p2
      let isCorrect : Bool := choice == winner
      let newStreak : Nat := if isCorrect then s.streak + 1 else 0
      { s with
          userChoice := some choice
          result := some (if isCorrect then BattleResult.correct else BattleResult.wrong)
          streak := newStreak
          gameStatus := if isCorrect then GameStatus.playing else GameStatus.gameOver
          cooldown := if isCorrect then (3 : Int) else 0 }
  | _, _ => s

/-- One firing of the cooldown interval: active only while cooldown > 0. -/
def tickCooldown (s : GameState) : GameState :=
  if 0 < s.cooldown then { s with cooldown := s.cooldown - 1 } else s

/-- The state part of the high-score effect: if streak > highScore then
highScore := streak. -/
def updateHighScore (s : GameState) : GameState :=
  if s.highScore < s.streak then { s with highScore := s.streak } else s

/-- The storage part of the high-score effect: localStorage is written with
the streak exactly when streak > highScore. -/
def persistHighScore (s : GameState) (store : Nat) : Nat :=
  if s.highScore < s.streak then s.streak else store

/-- The initial GameState built in the useState initializer, parameterised
by the persisted high score read from localStorage. -/
def initialState (savedHighScore : Nat) : GameState :=
  { pokemon1 := none
    pokemon2 := none
    userChoice := none
    streak := 0
    highScore := savedHighScore
    isLoading := false
    result := none
    achievements := []
    gameStatus := GameStatus.start
    difficulty := Difficulty.easy
    cooldown := 0 }

/-- The operations of the session controller, as invoked by the presentation
layer and by the external scheduler (effects). -/
inductive GameOp where
  | start (d : Difficulty)
  | load (r1 r2 : Option Pokemon)
  | choose (c : Nat)
  | tick
  | sync
deriving DecidableEq

/-- Apply one operation to the session state. -/
def applyOp : GameOp → GameState → GameState
  | GameOp.start d, s => startGame d s
  | GameOp.load r1 r2, s => loadNewBattle r1 r2 s
  | GameOp.choose c, s => handleChoice c s
  | GameOp.tick, s => tickCooldown s
  | GameOp.sync, s => updateHighScore s

/-- Run a sequence of operations from a state. -/
def runOps (ops : List GameOp) (s : GameState) : GameState :=
  ops.foldl (fun t op => applyOp op t) s

/-- One played round: a battle load (with its two fetch results) followed by
a choice, followed by the high-score effect that reacts to the streak
change. -/
structure RoundPlay where
  fetchA : Option Pokemon
  fetchB : Option Pokemon
  choice : Nat
deriving DecidableEq

/-- Play one round on a state. -/
def playRound (r : RoundPlay) (s : GameState) : GameState :=
  updateHighScore (handleChoice r.choice (loadNewBattle r.fetchA r.fetchB s))

/-- Play a sequence of rounds. -/
def playRounds (rs : List RoundPlay) (s : GameState) : GameState :=
  rs.foldl (fun t r => playRound r t) s

/-- The maximum streak value observed after each round of a sequence. -/
def maxStreakThrough : List RoundPlay → GameState → Nat
  | [], _ => 0
  | r :: rs, s => max (playRound r s).streak (maxStreakThrough rs (playRound r s))

/-! Concrete records and states used by witnesses and counterexamples. -/

/-- A candidate with total score 300. -/
def pokA : Pokemon :=
  { id := 1, name := "alpha", sprites := { front_default := "a.png" }
    stats := [{ base_stat := 300, stat := { name := "hp" } }]
    types := [{ type := { name := "grass" } }] }

/-- A candidate with total score 250. -/
def pokB : Pokemon :=
  { id := 2, name := "beta", sprites := { front_default := "b.png" }
    stats := [{ base_stat := 250, stat := { name := "hp" } }]
    types := [{ type := { name := "fire" } }] }

/-- A candidate with total score 280. -/
def twinA : Pokemon :=
  { id := 3, name := "gammaA", sprites := { front_default := "c.png" }
    stats := [{ base_stat := 280, stat := { name := "hp" } }]
    types := [] }

/-- Another candidate with total score 280. -/
def twinB : Pokemon :=
  { id := 4, name := "gammaB", sprites := { front_default := "d.png" }
    stats := [{ base_stat := 280, stat := { name := "hp" } }]
    types := [] }

/-- An active round awaiting a prediction. -/
def activeState : GameState :=
  { initialState 0 with
      pokemon1 := some pokA
      pokemon2 := some pokB
      gameStatus := GameStatus.playing }

/-- A state after an incorrect prediction: candidates still present, choice
recorded, cooldown 0, status gameOver. -/
def staleState : GameState :=
  { initialState 0 with
      pokemon1 := some pokA
      pokemon2 := some pokB
      userChoice := some 1
      result := some BattleResult.wrong
      gameStatus := GameStatus.gameOver
      cooldown := 0 }

/-- A state mid-cooldown. -/
def cool3State : GameState :=
  { initialState 0 with cooldown := 3 }

/-- A state whose streak (12) exceeds its high score (10). -/
def s12 : GameState :=
  { initialState 10 with streak := 12 }

/-- A pokemon with identifier 25 and total score 90. -/
def pikachu : Pokemon :=
  { id := 25, name := "pikachu", sprites := { front_default := "25.png" }
    stats := [{ base_stat := 35, stat := { name := "hp" } },
              { base_stat := 55, stat := { name := "attack" } }]
    types := [{ type := { name := "electric" } }] }

/-- A lookup service knowing only identifier 25. -/
def pokedexPikachu : Nat → Option Pokemon :=
  fun id => if id = 25 then some pikachu else none

/-- A family of pokemon with total score 100, one per identifier. -/
def mkWeak (i : Nat) : Pokemon :=
  { id := i, name := "weak", sprites := { front_default := "" }
    stats := [{ base_stat := 100, stat := { name := "hp" } }], types := [] }

/-- A lookup service answering every identifier. -/
def netAll : Nat → Option Pokemon := fun id => some (mkWeak id)

/-- A pokemon with total score 600. -/
def strongMon : Pokemon :=
  { id := 6, name := "strong", sprites := { front_default := "" }
    stats := [{ base_stat := 600, stat := { name := "hp" } }], types := [] }

/-- A pokemon with total score 120 and identifier 42. -/
def otherMon : Pokemon :=
  { id := 42, name := "other", sprites := { front_default := "" }
    stats := [{ base_stat := 120, stat := { name := "hp" } }], types := [] }

/-- A pokemon with total score 580, similar to strongMon within 50 points. -/
def simMon : Pokemon :=
  { id := 9, name := "similar", sprites := { front_default := "" }
    stats := [{ base_stat := 580, stat := { name := "hp" } }], types := [] }

/-- A lookup service returning weak pokemon everywhere except identifier 5,
where it returns otherMon. -/
def net5 : Nat → Option Pokemon :=
  fun id => if id = 5 then some otherMon else some (mkWeak id)

/-! Helper lemmas about the controller operations. -/

theorem handleChoice_noop (c : Nat) (s : GameState)
    (h : s.pokemon1 = none ∨ s.pokemon2 = none ∨ 0 < s.cooldown) :
    handleChoice c s = s := by
  rcases h with h | h | h
  · unfold handleChoice
    rw [h]
  · unfold handleChoice
    rw [h]
    rcases s.pokemon1 with _ | p1 <;> rfl
  · unfold handleChoice
    rcases s.pokemon1 with _ | p1 <;> rcases s.pokemon2 with _ | p2 <;> simp [h]

theorem handleChoice_eq (c : Nat) (s : GameState) (p1 p2 : Pokemon)
    (h1 : s.pokemon1 = some p1) (h2 : s.pokemon2 = some p2)
    (hc : ¬ 0 < s.cooldown) :
    handleChoice c s =
      { s with
          userChoice := some c
          result := some (if c == calculateWinner p1 p2 then BattleResult.correct
            else BattleResult.wrong)
          streak := if c == calculateWinner p1 p2 then s.streak + 1 else 0
          gameStatus := if c == calculateWinner p1 p2 then GameStatus.playing
            else GameStatus.gameOver
          cooldown := if c == calculateWinner p1 p2 then (3 : Int) else 0 } := by
  unfold handleChoice
  rw [h1, h2]
  simp [hc]

theorem handleChoice_highScore (c : Nat) (s : GameState) :
    (handleChoice c s).highScore = s.highScore := by
  rcases h1 : s.pokemon1 with _ | p1
  · rw [handleChoice_noop c s (Or.inl h1)]
  rcases h2 : s.pokemon2 with _ | p2
  · rw [handleChoice_noop c s (Or.inr (Or.inl h2))]
  by_cases hc : 0 < s.cooldown
  · rw [handleChoice_noop c s (Or.inr (Or.inr hc))]
  · rw [handleChoice_eq c s p1 p2 h1 h2 hc]

theorem tickCooldown_streak (s : GameState) : (tickCooldown s).streak = s.streak := by
  unfold tickCooldown
  split <;> rfl

theorem tickCooldown_highScore (s : GameState) :
    (tickCooldown s).highScore = s.highScore := by
  unfold tickCooldown
  split <;> rfl

theorem updateHighScore_streak (s : GameState) :
    (updateHighScore s).streak = s.streak := by
  unfold updateHighScore
  split <;> rfl

theorem updateHighScore_highScore (s : GameState) :
    (updateHighScore s).highScore = max s.highScore s.streak := by
  by_cases h : s.highScore < s.streak
  · simp [updateHighScore, h, max_eq_right (le_of_lt h)]
  · simp [updateHighScore, h, max_eq_left (Nat.le_of_not_lt h)]

theorem loadNewBattle_streak (r1 r2 : Option Pokemon) (s : GameState) :
    (loadNewBattle r1 r2 s).streak = s.streak := by
  cases r1 <;> cases r2 <;> rfl

theorem loadNewBattle_highScore (r1 r2 : Option Pokemon) (s : GameState) :
    (loadNewBattle r1 r2 s).highScore = s.highScore := by
  cases r1 <;> cases r2 <;> rfl

theorem startGame_highScore (d : Difficulty) (s : GameState) :
    (startGame d s).highScore = s.highScore := rfl

/-! Claim theorems. -/

/-- C1: calculateWinner, the comparison used by handleChoice to settle a
prediction, selects candidate 1 exactly when total(p1) >= total(p2) and
candidate 2 exactly when total(p1) < total(p2); in particular equal totals
resolve to candidate 1 (the greater-or-equal comparison). -/
theorem calculateWinner_spec :
    (∀ p1 p2 : Pokemon,
      (calculateWinner p1 p2 = 1 ↔ calculateTotalStats p2 ≤ calculateTotalStats p1) ∧
      (calculateWinner p1 p2 = 2 ↔ calculateTotalStats p1 < calculateTotalStats p2)) ∧
    (∀ p1 p2 : Pokemon, calculateTotalStats p1 = calculateTotalStats p2 →
      calculateWinner p1 p2 = 1) := by
  constructor
  · intro p1 p2
    constructor <;>
      (by_cases h : calculateTotalStats p2 ≤ calculateTotalStats p1 <;>
        simp [calculateWinner, h] <;> omega)
  · intro p1 p2 h
    simp [calculateWinner, h]

/-- C1 witness: two candidates with equal totals (280 each) resolve to
candidate 1. -/
theorem calculateWinner_spec_witness :
    calculateTotalStats twinA = calculateTotalStats twinB ∧
    calculateWinner twinA twinB = 1 :=
  ⟨by decide, calculateWinner_spec.2 twinA twinB (by decide)⟩

/-- C2 (amended): handleChoice is a no-op exactly under the guard the code
actually checks, namely when either candidate is absent or the cooldown is
positive; the mode and userPrediction parts of the stated precondition are
not checked by the guard (the presentation layer enforces them by disabling
the buttons), so a call violating only those parts does mutate the state. -/
theorem submitPrediction_guard_noop (c : Nat) (s : GameState)
    (h : s.pokemon1 = none ∨ s.pokemon2 = none ∨ 0 < s.cooldown) :
    handleChoice c s = s :=
  handleChoice_noop c s h

/-- C2 witness: on the initial state (no candidates) any choice is a no-op. -/
theorem submitPrediction_guard_noop_witness :
    handleChoice 1 (initialState 0) = initialState 0 :=
  submitPrediction_guard_noop 1 (initialState 0) (Or.inl rfl)

/-- C2 counterexample: a state in gameOver mode with a prediction already
recorded and cooldown 0 is not guarded: handleChoice mutates it (the streak
becomes 1 and the status flips back to playing), refuting the claim that any
precondition violation is a no-op. -/
theorem submitPrediction_guard_counterexample :
    staleState.gameStatus ≠ GameStatus.playing ∧
    staleState.userChoice ≠ none ∧
    handleChoice 1 staleState ≠ staleState := by decide

/-- C8: startGame, followed by the loading flag set at the top of the round
load it invokes, resets streak to 0, records the chosen difficulty, leaves
the start (idle) status for playing with the loading flag raised, and leaves
the high score untouched. -/
theorem startGame_spec (d : Difficulty) (s : GameState) :
    (beginLoading (startGame d s)).streak = 0 ∧
    (beginLoading (startGame d s)).difficulty = d ∧
    (beginLoading (startGame d s)).gameStatus = GameStatus.playing ∧
    (beginLoading (startGame d s)).isLoading = true ∧
    (beginLoading (startGame d s)).highScore = s.highScore ∧
    (startGame d s).highScore = s.highScore :=
  ⟨rfl, rfl, rfl, rfl, rfl, rfl⟩

/-- C9: when either fetch of a round load returns null, the only change to
the session state is the loading flag raised at the start of the load: every
other field (candidates, prediction, result, streak, high score, status,
difficulty, cooldown, achievements) keeps its pre-call value, so a failed
load never leaves a half-updated round. -/
theorem loadNewBattle_failure_frame (r1 r2 : Option Pokemon) (s : GameState)
    (h : r1 = none ∨ r2 = none) :
    loadNewBattle r1 r2 s = { s with isLoading := true } := by
  rcases h with h | h
  · subst h
    rfl
  · subst h
    cases r1 <;> rfl

/-- C9 witness: a load whose first fetch failed only raises the loading
flag on the initial state. -/
theorem loadNewBattle_failure_frame_witness :
    loadNewBattle none (some pokA) (initialState 7) =
      { initialState 7 with isLoading := true } :=
  loadNewBattle_failure_frame none (some pokA) (initialState 7) (Or.inl rfl)

/-- C4: on a valid prediction over an active round (both candidates present,
status playing, no prediction recorded, cooldown 0): a choice equal to the
computed winner increments the streak by exactly 1, records a correct
result, sets the cooldown to 3 and keeps the playing status; a choice that
differs zeroes the streak, records a wrong result and ends the game.  The
remaining in-session operations (the cooldown tick, the high-score effect
and the round load) never change the streak, and any streak decrease through
handleChoice records a wrong result and the gameOver status (startGame is
the session-boundary reset to 0, documented separately by C8). -/
theorem submitPrediction_round_spec :
    (∀ (s : GameState) (c : Nat) (p1 p2 : Pokemon),
      s.pokemon1 = some p1 → s.pokemon2 = some p2 →
      s.gameStatus = GameStatus.playing → s.userChoice = none → s.cooldown = 0 →
      (c = calculateWinner p1 p2 →
        (handleChoice c s).streak = s.streak + 1 ∧
        (handleChoice c s).result = some BattleResult.correct ∧
        (handleChoice c s).cooldown = 3 ∧
        (handleChoice c s).gameStatus = GameStatus.playing) ∧
      (c ≠ calculateWinner p1 p2 →
        (handleChoice c s).streak = 0 ∧
        (handleChoice c s).result = some BattleResult.wrong ∧
        (handleChoice c s).gameStatus = GameStatus.gameOver)) ∧
    (∀ s : GameState, (tickCooldown s).streak = s.streak) ∧
    (∀ s : GameState, (updateHighScore s).streak = s.streak) ∧
    (∀ (r1 r2 : Option Pokemon) (s : GameState),
      (loadNewBattle r1 r2 s).streak = s.streak) ∧
    (∀ (c : Nat) (s : GameState), (handleChoice c s).streak < s.streak →
      (handleChoice c s).result = some BattleResult.wrong ∧
      (handleChoice c s).gameStatus = GameStatus.gameOver) := by
  refine ⟨?_, tickCooldown_streak, updateHighScore_streak, loadNewBattle_streak, ?_⟩
  · intro s c p1 p2 h1 h2 _ _ hc
    have hc0 : ¬ 0 < s.cooldown := by omega
    rw [handleChoice_eq c s p1 p2 h1 h2 hc0]
    constructor
    · intro hw
      simp [hw]
    · intro hw
      have hb : (c == calculateWinner p1 p2) = false := by
        simpa using hw
      simp [hb]
  · intro c s h
    rcases h1 : s.pokemon1 with _ | p1
    · rw [handleChoice_noop c s (Or.inl h1)] at h
      omega
    rcases h2 : s.pokemon2 with _ | p2
    · rw [handleChoice_noop c s (Or.inr (Or.inl h2))] at h
      omega
    by_cases hc : 0 < s.cooldown
    · rw [handleChoice_noop c s (Or.inr (Or.inr hc))] at h
      omega
    · rw [handleChoice_eq c s p1 p2 h1 h2 hc] at h ⊢
      by_cases hw : (c == calculateWinner p1 p2) = true
      · simp [hw] at h
      · have hb : (c == calculateWinner p1 p2) = false := by
          simpa using hw
        simp [hb]

/-- C4 witness: on the concrete active round (totals 300 vs 250), choosing
candidate 1 is correct and choosing candidate 2 is wrong, with the stated
field updates. -/
theorem submitPrediction_round_spec_witness :
    ((handleChoice 1 activeState).streak = activeState.streak + 1 ∧
     (handleChoice 1 activeState).result = some BattleResult.correct ∧
     (handleChoice 1 activeState).cooldown = 3 ∧
     (handleChoice 1 activeState).gameStatus = GameStatus.playing) ∧
    ((handleChoice 2 activeState).streak = 0 ∧
     (handleChoice 2 activeState).result = some BattleResult.wrong ∧
     (handleChoice 2 activeState).gameStatus = GameStatus.gameOver) :=
  ⟨(submitPrediction_round_spec.1 activeState 1 pokA pokB rfl rfl rfl rfl rfl).1
      (by decide),
   (submitPrediction_round_spec.1 activeState 2 pokA pokB rfl rfl rfl rfl rfl).2
      (by decide)⟩

theorem applyOp_cooldown_nonneg (op : GameOp) (s : GameState)
    (h : 0 ≤ s.cooldown) : 0 ≤ (applyOp op s).cooldown := by
  cases op with
  | start d => exact h
  | load r1 r2 =>
    cases r1 <;> cases r2 <;> simp [applyOp, loadNewBattle, beginLoading] <;> exact h
  | choose c =>
    rcases h1 : s.pokemon1 with _ | p1
    · rw [show applyOp (GameOp.choose c) s = handleChoice c s from rfl,
        handleChoice_noop c s (Or.inl h1)]
      exact h
    rcases h2 : s.pokemon2 with _ | p2
    · rw [show applyOp (GameOp.choose c) s = handleChoice c s from rfl,
        handleChoice_noop c s (Or.inr (Or.inl h2))]
      exact h
    by_cases hc : 0 < s.cooldown
    · rw [show applyOp (GameOp.choose c) s = handleChoice c s from rfl,
        handleChoice_noop c s (Or.inr (Or.inr hc))]
      exact h
    · rw [show applyOp (GameOp.choose c) s = handleChoice c s from rfl,
        handleChoice_eq c s p1 p2 h1 h2 hc]
      by_cases hw : (c == calculateWinner p1 p2) = true <;> simp [hw]
  | tick =>
    by_cases hc : 0 < s.cooldown <;> simp [applyOp, tickCooldown, hc] <;> omega
  | sync =>
    by_cases hs : s.highScore < s.streak <;> simp [applyOp, updateHighScore, hs] <;>
      exact h

theorem runOps_cooldown_nonneg :
    ∀ (ops : List GameOp) (s : GameState), 0 ≤ s.cooldown →
      0 ≤ (runOps ops s).cooldown := by
  intro ops
  induction ops with
  | nil => intro s h; exact h
  | cons op ops ih => intro s h; exact ih (applyOp op s) (applyOp_cooldown_nonneg op s h)

/-- C7: the cooldown is exactly 3 immediately after a correct prediction on
an uncooled round; each tick while the cooldown is positive decrements it by
exactly 1; and along every operation sequence from the initial state the
cooldown never becomes negative. -/
theorem cooldown_spec :
    (∀ (s : GameState) (c : Nat) (p1 p2 : Pokemon),
      s.pokemon1 = some p1 → s.pokemon2 = some p2 → s.cooldown = 0 →
      c = calculateWinner p1 p2 → (handleChoice c s).cooldown = 3) ∧
    (∀ s : GameState, 0 < s.cooldown →
      (tickCooldown s).cooldown = s.cooldown - 1) ∧
    (∀ (ops : List GameOp) (h0 : Nat),
      0 ≤ (runOps ops (initialState h0)).cooldown) := by
  refine ⟨?_, ?_, ?_⟩
  · intro s c p1 p2 h1 h2 hc hw
    have hc0 : ¬ 0 < s.cooldown := by omega
    rw [handleChoice_eq c s p1 p2 h1 h2 hc0]
    simp [hw]
  · intro s h
    simp [tickCooldown, h]
  · intro ops h0
    exact runOps_cooldown_nonneg ops (initialState h0) (le_refl 0)

/-- C7 witness: a correct prediction on the concrete active round sets the
cooldown to 3; a tick on a state with cooldown 3 decrements it to 2; the
empty operation sequence from the initial state has non-negative cooldown. -/
theorem cooldown_spec_witness :
    (handleChoice 1 activeState).cooldown = 3 ∧
    (tickCooldown cool3State).cooldown = cool3State.cooldown - 1 ∧
    0 ≤ (runOps [] (initialState 0)).cooldown :=
  ⟨cooldown_spec.1 activeState 1 pokA pokB rfl rfl rfl (by decide),
   cooldown_spec.2.1 cool3State (by decide),
   cooldown_spec.2.2 [] 0⟩

theorem playRound_highScore (r : RoundPlay) (s : GameState) :
    (playRound r s).highScore = max s.highScore (playRound r s).streak := by
  unfold playRound
  rw [updateHighScore_highScore, updateHighScore_streak, handleChoice_highScore,
    loadNewBattle_highScore]

theorem playRounds_highScore (rs : List RoundPlay) :
    ∀ s : GameState,
      (playRounds rs s).highScore = max s.highScore (maxStreakThrough rs s) := by
  induction rs with
  | nil =>
    intro s
    show s.highScore = max s.highScore 0
    rw [Nat.max_zero]
  | cons r rs ih =>
    intro s
    have h : playRounds (r :: rs) s = playRounds rs (playRound r s) := rfl
    rw [h, ih (playRound r s), playRound_highScore]
    rw [max_assoc]
    rfl

theorem applyOp_highScore_mono (op : GameOp) (s : GameState) :
    s.highScore ≤ (applyOp op s).highScore := by
  cases op with
  | start d => exact le_refl _
  | load r1 r2 => exact le_of_eq (loadNewBattle_highScore r1 r2 s).symm
  | choose c => exact le_of_eq (handleChoice_highScore c s).symm
  | tick => exact le_of_eq (tickCooldown_highScore s).symm
  | sync =>
    show s.highScore ≤ (updateHighScore s).highScore
    rw [updateHighScore_highScore]
    exact le_max_left _ _

/-- C6: the high score never decreases across any operation of the
controller; after any sequence of played rounds it equals the larger of its
value at the start of the sequence and the maximum streak observed after
each round; and the persisted value is rewritten (with the streak) exactly
when the streak exceeds the current high score. -/
theorem bestStreak_spec :
    (∀ (op : GameOp) (s : GameState), s.highScore ≤ (applyOp op s).highScore) ∧
    (∀ (rs : List RoundPlay) (s : GameState),
      (playRounds rs s).highScore = max s.highScore (maxStreakThrough rs s)) ∧
    (∀ (s : GameState) (store : Nat),
      (s.highScore < s.streak →
        persistHighScore s store = s.streak ∧
        (updateHighScore s).highScore = s.streak) ∧
      (¬ s.highScore < s.streak →
        persistHighScore s store = store ∧
        (updateHighScore s).highScore = s.highScore)) := by
  refine ⟨applyOp_highScore_mono, fun rs s => playRounds_highScore rs s, ?_⟩
  intro s store
  constructor <;> intro h <;> simp [persistHighScore, updateHighScore, h]

/-- C6 witness: with persisted value 10 and streak 12 the store is rewritten
to 12 and the high score becomes 12; with persisted value 5 and streak 0
nothing changes. -/
theorem bestStreak_spec_witness :
    (persistHighScore s12 10 = s12.streak ∧
     (updateHighScore s12).highScore = s12.streak) ∧
    (persistHighScore (initialState 5) 5 = 5 ∧
     (updateHighScore (initialState 5)).highScore = (initialState 5).highScore) :=
  ⟨(bestStreak_spec.2.2 s12 10).1 (by decide),
   (bestStreak_spec.2.2 (initialState 5) 5).2 (by decide)⟩

theorem shouldAccept_easy (ex p : Pokemon) :
    shouldAccept Difficulty.easy (some ex) p = false := rfl

theorem fetchLoop_easy_exclude (net : Nat → Option Pokemon) (ex : Pokemon)
    (draws : Nat → Nat) :
    ∀ (n k : Nat) (cache : Nat → Option Pokemon),
      (∀ j, j < n → (net (draws (k + j))).isSome = true) →
      fetchRandomPokemonLoop net Difficulty.easy (some ex) draws cache k n =
        net (draws (k + n)) := by
  intro n
  induction n with
  | zero => intro k cache _; rfl
  | succ n ih =>
    intro k cache h
    have hk : (net (draws (k + 0))).isSome = true := h 0 (Nat.succ_pos n)
    rw [Nat.add_zero] at hk
    obtain ⟨q, hq⟩ := Option.isSome_iff_exists.mp hk
    have harith : k + 1 + n = k + (n + 1) := by omega
    have hrest : ∀ j, j < n → (net (draws (k + 1 + j))).isSome = true := by
      intro j hj
      have hx := h (j + 1) (by omega)
      have e : k + (j + 1) = k + 1 + j := by omega
      rwa [e] at hx
    have hrec := ih (k + 1) (fun j => if j = draws k then some q else cache j) hrest
    rw [harith] at hrec
    cases hcache : cache (draws k) with
    | some p =>
      simp only [fetchRandomPokemonLoop, hcache, hq, shouldAccept_easy]
      simpa using hrec
    | none =>
      simp only [fetchRandomPokemonLoop, hcache, hq, shouldAccept_easy]
      simpa using hrec

/-- C10: with an exclusion record in standard (easy) difficulty the
acceptance gate of the sampling loop is false on every candidate (it
requires hard difficulty), so whenever the five in-loop lookups succeed the
returned second candidate is exactly the one fetched after the loop from
the sixth freshly sampled identifier, never one accepted inside the loop. -/
theorem fetch_easy_exclude_spec :
    (∀ ex p : Pokemon, shouldAccept Difficulty.easy (some ex) p = false) ∧
    (∀ (net cache : Nat → Option Pokemon) (draws : Nat → Nat) (ex : Pokemon),
      (∀ k, k < maxAttempts → (net (draws k)).isSome = true) →
      fetchRandomPokemon net cache draws Difficulty.easy (some ex) =
        net (draws maxAttempts)) := by
  refine ⟨fun ex p => shouldAccept_easy ex p, ?_⟩
  intro net cache draws ex h
  have h2 : ∀ j, j < maxAttempts → (net (draws (0 + j))).isSome = true := by
    intro j hj
    rw [Nat.zero_add]
    exact h j hj
  have hmain := fetchLoop_easy_exclude net ex draws maxAttempts 0 cache h2
  rw [Nat.zero_add] at hmain
  exact hmain

/-- C10 witness: with an always-answering lookup and draws 0..5, the easy
mode exclusion call returns the pokemon of the sixth draw. -/
theorem fetch_easy_exclude_spec_witness :
    shouldAccept Difficulty.easy (some pokA) pokB = false ∧
    fetchRandomPokemon netAll (fun _ => none) (fun k => k) Difficulty.easy
      (some pokA) = netAll maxAttempts :=
  ⟨fetch_easy_exclude_spec.1 pokA pokB,
   fetch_easy_exclude_spec.2 netAll (fun _ => none) (fun k => k) pokA (by decide)⟩

/-- C3 fails on the code: the sampling gate never compares identifiers, and
in hard mode the excluded pokemon is trivially similar to itself (difference
0 is at most 50), so the second fetch excluding pikachu returns pikachu
itself at the first draw of identifier 25, and the loaded round holds two
candidates with the same identifier 25. -/
theorem distinct_ids_violated :
    fetchRandomPokemon pokedexPikachu (fun _ => none) (fun _ => 25)
      Difficulty.hard (some pikachu) = some pikachu ∧
    (loadNewBattle (some pikachu) (some pikachu) (initialState 0)).pokemon1 =
      (loadNewBattle (some pikachu) (some pikachu) (initialState 0)).pokemon2 ∧
    pikachu.id = 25 := by decide

/-- C5: the within-bound half holds (a similar candidate found inside the
loop is returned), but the fallback diverges from the stated policy: after
five dissimilar samples the code fetches a brand-new sixth random
identifier (here 5, giving otherMon) instead of returning the last sampled
candidate (mkWeak 4), even though its own comment says it returns the last
one found; the returned candidate was never similarity-checked at all. -/
theorem challenging_fallback_fresh_sample :
    fetchRandomPokemon (fun _ => some simMon) (fun _ => none) (fun k => k)
      Difficulty.hard (some strongMon) = some simMon ∧
    net5 4 = some (mkWeak 4) ∧
    isSimilarStats (mkWeak 4) strongMon = false ∧
    net5 5 = some otherMon ∧
    fetchRandomPokemon net5 (fun _ => none) (fun k => k) Difficulty.hard
      (some strongMon) = some otherMon ∧
    otherMon ≠ mkWeak 4 ∧
    otherMon.id ≠ (mkWeak 4).id ∧
    isSimilarStats otherMon strongMon = false := by decide
